import Mathlib

set_option autoImplicit false

namespace DigitalPet

/-!
Shallow embedding of the `llm_service` app of the Digital-Pet backend:
`SimpleLLMService` / `LangChainLLMService` from `llm_service/services.py`,
the `send_message` view from `llm_service/views.py`, and the REST chat
action from `llm_service/api_views.py`.

Database tables are lists of rows; the external LLM invocation and the
Python `re` / `json` library calls are oracle parameters; Python ints are
`Int`; a Python function that can raise an uncaught exception returns
`Except String`.
-/

/-- A Django `User` is identified by an opaque id. -/
abbrev UserId := Nat

/-- Row of the `ChatMessage` model (`llm_service/models.py`): user foreign
key, role, content, session id, and the `auto_now_add` creation timestamp. -/
structure ChatMessageRow where
  user : UserId
  role : String
  content : String
  session_id : String
  created_at : Nat
deriving Repr, DecidableEq

/-- The slice of the `LLMConfig` model (`llm_service/models.py`) that drives
control flow in `LangChainLLMService._get_llm_response`: only the presence of
a config row and the truthiness of `api_key` are branched on. -/
structure LLMConfig where
  api_key : String
deriving Repr, DecidableEq

/-- Value stored per session in the `pet_attributes` dictionary. -/
structure PetAttrs where
  health : Int
  mood : Int
deriving Repr, DecidableEq

/-- The `pet_attributes` dictionary: session-id keyed. -/
abbrev PetDict := List (String × PetAttrs)

/-- Dictionary read, `self.pet_attributes.get(session_id)`. -/
def lookupAttrs : PetDict → String → Option PetAttrs
  | [], _ => none
  | (k, v) :: rest, sid => if k = sid then some v else lookupAttrs rest sid

/-- Dictionary write, `self.pet_attributes[session_id] = a`. -/
def setAttrs : PetDict → String → PetAttrs → PetDict
  | [], sid, a => [(sid, a)]
  | (k, v) :: rest, sid, a =>
    if k = sid then (k, a) :: rest else (k, v) :: setAttrs rest sid a

/-- The clamping idiom `max(0, min(100, v))` used at services.py:177-178 and
services.py:693-695. -/
def clamp (v : Int) : Int := max 0 (min 100 v)

/-- `SimpleLLMService._get_pet_attributes`: the stored attributes, or the
default `\x7b'health': 80, 'mood': 80\x7d` when the session is absent. -/
def get_pet_attributes (d : PetDict) (sid : String) : PetAttrs :=
  (lookupAttrs d sid).getD { health := 80, mood := 80 }

/-- `SimpleLLMService._update_pet_attributes`: add the deltas, clamp both
components into [0,100], store and return the result. -/
def update_pet_attributes (d : PetDict) (sid : String) (health_change mood_change : Int) :
    PetAttrs × PetDict :=
  let attrs := get_pet_attributes d sid
  let attrs' : PetAttrs :=
    { health := clamp (attrs.health + health_change)
      mood := clamp (attrs.mood + mood_change) }
  (attrs', setAttrs d sid attrs')

/-- Fields of the decoded JSON object that `_parse_json_response` reads with
`data.get`; a `none` field is absent from the object. -/
structure JsonData where
  result : Option Bool
  message : Option String
  options : Option (List String)
  health : Option Int
  mood : Option Int
deriving Repr, DecidableEq

/-- Outcome of `json.loads`: a decoded object, or a `JSONDecodeError`. -/
inductive LoadsOutcome where
  | ok (data : JsonData)
  | decodeError
deriving Repr, DecidableEq

/-- Oracle for the Python library calls `_parse_json_response` makes on a
given `content` string: the two `re.search` results (the fenced ```json block
regex at services.py:668 and the brace-delimited-object-containing-"message"
regex at services.py:673) and `json.loads`. -/
structure ParseOracle where
  fenced_match : Option String
  brace_match : Option String
  loads : String → LoadsOutcome

/-- The `json_str` selected at services.py:668-677: the fenced block when the
first regex matches, else the brace-delimited object when the second regex
matches, else the whole content string. -/
def json_str_of (o : ParseOracle) (content : String) : String :=
  match o.fenced_match with
  | some s => s
  | none =>
    match o.brace_match with
    | some s => s
    | none => content

/-- The dict returned by `_parse_json_response` (and by the error handlers of
`_get_llm_response`): exactly the keys result, message, options, health,
mood. -/
structure ChatResult where
  result : Bool
  message : String
  options : List String
  health : Int
  mood : Int
deriving Repr, DecidableEq

/-- Fallback options triple at services.py:686 and services.py:705. -/
def default_options : List String :=
  ["Continue chatting", "Change the topic", "Take a break"]

/-- The statement `self.pet_attributes[session_id]['health'] = h`
(services.py:693): raises `KeyError` when the session id is absent. -/
def store_health (d : PetDict) (sid : String) (h : Int) : Except String PetDict :=
  match lookupAttrs d sid with
  | none => .error "KeyError"
  | some a => .ok (setAttrs d sid { a with health := h })

/-- The statement `self.pet_attributes[session_id]['mood'] = m`
(services.py:695): raises `KeyError` when the session id is absent. -/
def store_mood (d : PetDict) (sid : String) (m : Int) : Except String PetDict :=
  match lookupAttrs d sid with
  | none => .error "KeyError"
  | some a => .ok (setAttrs d sid { a with mood := m })

/-- `LangChainLLMService._parse_json_response` (services.py:655-708), with
the final `pet_attributes` threaded through.  Only `JSONDecodeError` (and
`AttributeError`) are caught; the `KeyError` of the attribute-update
statements propagates, modelled by `Except.error`. -/
def parse_json_response (o : ParseOracle) (content : String) (sid : String) (d : PetDict) :
    Except String (ChatResult × PetDict) :=
  match o.loads (json_str_of o content) with
  | .ok data => do
    let attrs := get_pet_attributes d sid
    let res : ChatResult :=
      { result := data.result.getD true
        message := data.message.getD content
        options := data.options.getD default_options
        health := data.health.getD attrs.health
        mood := data.mood.getD attrs.mood }
    let d1 ← match data.health with
      | some h => store_health d sid (clamp h)
      | none => .ok d
    let d2 ← match data.mood with
      | some m => store_mood d1 sid (clamp m)
      | none => .ok d1
    .ok (res, d2)
  | .decodeError =>
    let attrs := get_pet_attributes d sid
    .ok ({ result := true
           message := content
           options := default_options
           health := attrs.health
           mood := attrs.mood }, d)

/-- Outcome of the `try` block of `LangChainLLMService._get_llm_response`:
the LangChain imports and `llm.invoke` either produce a content string, or
raise `ImportError`, or raise some other exception with message `msg`. -/
inductive LLMOutcome where
  | content (s : String)
  | importErr
  | exc (msg : String)
deriving Repr, DecidableEq

/-- A chat response: the plain string returned by the unconfigured-service
early exit, or a result dict. -/
inductive LLMResponse where
  | text (s : String)
  | obj (r : ChatResult)
deriving Repr, DecidableEq

/-- Early-exit string at services.py:517. -/
def no_api_key_msg : String := "⚠️ 系统提示：请先在管理后台配置LLM服务的API密钥。"

/-- Message of the `except ImportError` handler (services.py:641). -/
def import_error_message : String :=
  "⚠️ 系统提示：LangChain未安装或版本不兼容。请运行：pip install langchain langchain-openai"

/-- Message of the `except Exception` handler (services.py:649). -/
def exc_error_message (m : String) : String := "⚠️ 调用LLM服务时出错：" ++ m

/-- Options of the `except ImportError` handler (services.py:642). -/
def import_error_options : List String := ["安装依赖", "查看文档", "稍后再试"]

/-- Options of the `except Exception` handler (services.py:650). -/
def exc_error_options : List String := ["重试", "检查配置", "查看帮助"]

/-- The error dict built by the two `except` handlers of
`_get_llm_response`: result false, a message, three options, and the
session's current stored attributes. -/
def error_dict (msg : String) (opts : List String) (d : PetDict) (sid : String) : ChatResult :=
  { result := false
    message := msg
    options := opts
    health := (get_pet_attributes d sid).health
    mood := (get_pet_attributes d sid).mood }

/-- `LangChainLLMService._get_llm_response` (services.py:503-653) for a
request without image data.  (`_analyze_image_content` catches every
exception it can raise and always returns a complete dict, so the image
branch before the `try` block cannot raise; the claims under study concern
the no-image path.)  `pet_type` only selects the system prompt sent to the
external LLM, whose behaviour is the `outcome` oracle. -/
def get_llm_response (config : Option LLMConfig) (o : ParseOracle) (outcome : LLMOutcome)
    (pet_type : Option String) (sid : String) (d : PetDict) : LLMResponse × PetDict :=
  match config with
  | none => (.text no_api_key_msg, d)
  | some cfg =>
    if cfg.api_key = "" then (.text no_api_key_msg, d)
    else
      match outcome with
      | .importErr => (.obj (error_dict import_error_message import_error_options d sid), d)
      | .exc m => (.obj (error_dict (exc_error_message m) exc_error_options d sid), d)
      | .content s =>
        match parse_json_response o s sid d with
        | .ok (r, d') => (.obj r, d')
        | .error e => (.obj (error_dict (exc_error_message e) exc_error_options d sid), d)

/-- State of a `SimpleLLMService` / `LangChainLLMService` instance. -/
structure ServiceState where
  user : Option UserId
  config : Option LLMConfig
  pet_attributes : PetDict
deriving Repr, DecidableEq

/-- `SimpleLLMService.__init__` (services.py:46-56): store the user, query
the active config, start with an empty `pet_attributes` dictionary. -/
def ServiceState.init (user : Option UserId) (config : Option LLMConfig) : ServiceState :=
  { user := user, config := config, pet_attributes := [] }

/-- The `ChatMessage` table. -/
abbrev MessageDb := List ChatMessageRow

/-- `SimpleLLMService.save_message` (services.py:101-122): returns `none`
and creates no row for a guest service, otherwise creates exactly one row. -/
def save_message (st : ServiceState) (db : MessageDb) (now : Nat)
    (role content sid : String) : Option ChatMessageRow × MessageDb :=
  match st.user with
  | none => (none, db)
  | some u =>
    let m : ChatMessageRow :=
      { user := u, role := role, content := content, session_id := sid, created_at := now }
    (some m, db ++ [m])

/-- History entries returned by `get_chat_history`: dicts with keys role,
content, created_at. -/
structure HistEntry where
  role : String
  content : String
  created_at : Nat
deriving Repr, DecidableEq

/-- `SimpleLLMService.get_chat_history` (services.py:71-99): empty for a
guest service; otherwise the rows filtered on user and session id, ordered
by `created_at`, truncated to `limit`, converted to dicts. -/
def get_chat_history (st : ServiceState) (db : MessageDb) (sid : String) (limit : Nat) :
    List HistEntry :=
  match st.user with
  | none => []
  | some u =>
    (((db.filter (fun m => m.user == u && m.session_id == sid)).mergeSort
        (fun a b => a.created_at ≤ b.created_at)).take limit).map
      (fun m => { role := m.role, content := m.content, created_at := m.created_at })

/-- The content saved as the assistant message (services.py:163-166):
`ai_response['message']` when the response is a dict containing 'message'
(every `ChatResult` does), else `str(ai_response)`. -/
def response_text : LLMResponse → String
  | .obj r => r.message
  | .text s => s

/-- Step 2 of `SimpleLLMService.chat` (services.py:144-155): initialise the
session's attributes from the optional health/happiness arguments (defaults
80/80), or overwrite each attribute for which an argument was supplied.  No
clamping happens here. -/
def chat_init_attrs (d : PetDict) (sid : String) (health happiness : Option Int) : PetDict :=
  match lookupAttrs d sid with
  | none =>
    setAttrs d sid { health := health.getD 80, mood := happiness.getD 80 }
  | some attrs =>
    setAttrs d sid { health := health.getD attrs.health, mood := happiness.getD attrs.mood }

/-- `SimpleLLMService.chat` (services.py:124-168), as inherited by
`LangChainLLMService` (whose `_get_llm_response` override is the one
dispatched to): save the user message, initialise or update the session's
attributes from the optional health/happiness arguments (no clamping),
invoke the LLM, save the assistant reply.  (`save_message`'s return value is
used only for its database effect, hence the `.2` projections.) -/
def chat (st : ServiceState) (db : MessageDb) (now : Nat)
    (user_message sid : String) (pet_type : Option String)
    (health happiness : Option Int)
    (o : ParseOracle) (outcome : LLMOutcome) :
    LLMResponse × ServiceState × MessageDb :=
  let db1 := (save_message st db now "user" user_message sid).2
  let d1 := chat_init_attrs st.pet_attributes sid health happiness
  let r := get_llm_response st.config o outcome pet_type sid d1
  let st' := { st with pet_attributes := r.2 }
  let db2 := (save_message st' db1 (now + 1) "assistant" (response_text r.1) sid).2
  (r.1, st', db2)

/-- Heading line of the fox persona template (services.py:720-886); the rest
of the fixed template body is elided, since only which fixed string is
selected matters here. -/
def fox_prompt : String := "# System Prompt: AI Healing Fox \"Lingling\""

/-- Opening lines of the dog persona template (services.py:887-1056): the
literal begins with a `<translate_input>` line followed by the heading. -/
def dog_prompt : String :=
  "<translate_input>\n# System Prompt: AI Therapy Dog \"Xiao Mo\""

/-- Heading line of the snake persona template (services.py:1057-1227). -/
def snake_prompt : String := "# System Prompt: AI Healing Snake \"Jing\""

/-- First line of the default template (services.py:1228-1253). -/
def default_prompt : String := "You are a helpful AI assistant. Please respond in English."

/-- `LangChainLLMService._get_system_prompt` (services.py:710-1253): a pure
selection on `pet_type` among four fixed templates. -/
def get_system_prompt (pet_type : Option String) : String :=
  if pet_type = some "fox" then fox_prompt
  else if pet_type = some "dog" then dog_prompt
  else if pet_type = some "snake" then snake_prompt
  else default_prompt

/-- Python `str.strip()`: drop whitespace characters from both ends,
modelled over the string's character list (structurally, so it evaluates). -/
def strip (s : String) : String :=
  ⟨((s.data.dropWhile Char.isWhitespace).reverse.dropWhile Char.isWhitespace).reverse⟩

/-- Decoded request body of the `send_message` view; the fields mirror the
`data.get` calls at views.py:56-59. -/
structure SendMessageBody where
  message : String
  session_id : String
  pet_type : Option String
deriving Repr, DecidableEq

/-- JSON payload and status of a `JsonResponse` from the `send_message`
view. -/
structure ViewResponse where
  status : Nat
  success : Bool
  error : Option String
  data : Option LLMResponse
deriving Repr, DecidableEq

/-- The `send_message` view (views.py:43-107).  `body = none` models a
request body that is not valid JSON (`json.JSONDecodeError` → 400); an empty
message after `strip` is rejected with 400; otherwise a fresh
`LangChainLLMService` is built and `chat` is called.  `exc = some m` models
any other exception raised while handling the request, caught by the final
`except Exception` handler (→ 500); the database effects of a handler
interrupted mid-flight are not modelled. -/
def send_message (body : Option SendMessageBody) (user : Option UserId)
    (config : Option LLMConfig) (db : MessageDb) (now : Nat)
    (o : ParseOracle) (outcome : LLMOutcome) (exc : Option String) :
    ViewResponse × MessageDb :=
  match body with
  | none =>
    ({ status := 400, success := false, error := some "无效的JSON数据", data := none }, db)
  | some b =>
    let user_message := strip b.message
    if user_message = "" then
      ({ status := 400, success := false, error := some "消息不能为空", data := none }, db)
    else
      match exc with
      | some m =>
        ({ status := 500, success := false
           error := some ("服务器错误：" ++ m), data := none }, db)
      | none =>
        let st := ServiceState.init user config
        let (resp, _, db') := chat st db now user_message b.session_id b.pet_type none none o outcome
        ({ status := 200, success := true, error := none, data := some resp }, db')

/-- Raw data of a REST chat request as seen by `ChatRequestSerializer`
(`llm_service/serializers.py:62-97`): `message = none` models a missing
required field, `pet_type = none` models null/absent. -/
structure ApiChatRequest where
  message : Option String
  session_id : String
  pet_type : Option String
deriving Repr, DecidableEq

/-- Validation performed by `ChatRequestSerializer.is_valid`: `message` is
required, at most 10000 characters, and not blank after strip
(`validate_message` strips it); `pet_type`, when given, must be one of
fox/dog/snake.  Returns the validated (message, session_id, pet_type) or a
list of error descriptions. -/
def chat_request_validate (r : ApiChatRequest) :
    Except (List String) (String × String × Option String) :=
  match r.message with
  | none => .error ["message: this field is required"]
  | some msg =>
    if msg.length > 10000 then .error ["message: ensure this field has no more than 10000 characters"]
    else if strip msg = "" then .error ["message: 消息内容不能为空"]
    else
      match r.pet_type with
      | none => .ok (strip msg, r.session_id, none)
      | some pt =>
        if pt = "fox" ∨ pt = "dog" ∨ pt = "snake" then .ok (strip msg, r.session_id, some pt)
        else .error ["pet_type: not a valid choice"]

/-- Response of the REST chat action: HTTP status, the body's 'status'
field, and the serializer errors when present. -/
structure ApiResponse where
  http_status : Nat
  body_status : String
  errors : Option (List String)
deriving Repr, DecidableEq

/-- `LLMViewSet.chat` (`llm_service/api_views.py:38-130`): serializer-invalid
requests get HTTP 400 with body status 'error' and the serializer errors;
otherwise the service runs and 200 'success' is returned, or 500 'error'
when an exception escapes (`exc = some m`). -/
def api_chat (r : ApiChatRequest) (user : UserId) (config : Option LLMConfig)
    (db : MessageDb) (now : Nat) (o : ParseOracle) (outcome : LLMOutcome)
    (exc : Option String) : ApiResponse × MessageDb :=
  match chat_request_validate r with
  | .error errs => ({ http_status := 400, body_status := "error", errors := some errs }, db)
  | .ok (msg, sid, pt) =>
    match exc with
    | some _ => ({ http_status := 500, body_status := "error", errors := none }, db)
    | none =>
      let st := ServiceState.init (some user) config
      let (_, _, db') := chat st db now msg sid pt none none o outcome
      ({ http_status := 200, body_status := "success", errors := none }, db')

/-! Range predicates and supporting lemmas for the clamping claims. -/

/-- Both attributes of a stored entry lie in [0,100]. -/
def attrs_in_range (a : PetAttrs) : Prop :=
  0 ≤ a.health ∧ a.health ≤ 100 ∧ 0 ≤ a.mood ∧ a.mood ≤ 100

instance (a : PetAttrs) : Decidable (attrs_in_range a) := by
  unfold attrs_in_range; infer_instance

/-- Every entry of the `pet_attributes` dictionary lies in [0,100]. -/
def dict_in_range (d : PetDict) : Prop := ∀ p ∈ d, attrs_in_range p.2

instance (d : PetDict) : Decidable (dict_in_range d) :=
  List.decidableBAll _ d

/-- An optional attribute argument that, when supplied, lies in [0,100]. -/
def opt_in_range : Option Int → Prop
  | none => True
  | some v => 0 ≤ v ∧ v ≤ 100

instance (v : Option Int) : Decidable (opt_in_range v) := by
  cases v <;> unfold opt_in_range <;> infer_instance

/-- A concrete parse oracle on which both regexes miss and `json.loads`
raises `JSONDecodeError` (e.g. the reply was plain prose). -/
def triv_oracle : ParseOracle :=
  { fenced_match := none, brace_match := none, loads := fun _ => .decodeError }

/-- A concrete parse oracle describing an LLM reply that decodes to a JSON
object carrying message "hi" and an out-of-range health value 150. -/
def oracle150 : ParseOracle :=
  { fenced_match := none, brace_match := none
    loads := fun _ => .ok
      { result := none, message := some "hi", options := none
        health := some 150, mood := none } }

/-- A concrete parse oracle describing an LLM reply that decodes to a JSON
object carrying message "hi" and an out-of-range mood value -5. -/
def oracle_mood_neg : ParseOracle :=
  { fenced_match := none, brace_match := none
    loads := fun _ => .ok
      { result := none, message := some "hi", options := none
        health := none, mood := some (-5) } }

theorem clamp_nonneg (v : Int) : 0 ≤ clamp v := le_max_left 0 _

theorem clamp_le_100 (v : Int) : clamp v ≤ 100 := by
  unfold clamp; omega

theorem clamp_eq_self {v : Int} (h0 : 0 ≤ v) (h1 : v ≤ 100) : clamp v = v := by
  unfold clamp; omega

theorem clamp_ne_self {v : Int} (h : v < 0 ∨ 100 < v) : clamp v ≠ v := by
  unfold clamp; omega

theorem lookupAttrs_setAttrs_self (d : PetDict) (sid : String) (a : PetAttrs) :
    lookupAttrs (setAttrs d sid a) sid = some a := by
  induction d with
  | nil => simp [setAttrs, lookupAttrs]
  | cons p rest ih =>
    obtain ⟨k, v⟩ := p
    by_cases h : k = sid <;> simp [setAttrs, lookupAttrs, h, ih]

theorem dict_in_range_setAttrs {d : PetDict} {sid : String} {a : PetAttrs}
    (hd : dict_in_range d) (ha : attrs_in_range a) : dict_in_range (setAttrs d sid a) := by
  induction d with
  | nil =>
    intro p hp
    simp [setAttrs] at hp
    simp [hp, ha]
  | cons q rest ih =>
    obtain ⟨k, v⟩ := q
    by_cases h : k = sid
    · intro p hp
      simp [setAttrs, h] at hp
      rcases hp with hp | hp
      · simp [hp, ha]
      · exact hd p (List.mem_cons_of_mem _ hp)
    · intro p hp
      simp only [setAttrs, if_neg h, List.mem_cons] at hp
      rcases hp with hp | hp
      · exact hd p (by simp [hp])
      · exact ih (fun q hq => hd q (List.mem_cons_of_mem _ hq)) p hp

theorem attrs_in_range_of_lookup {d : PetDict} {sid : String} {a : PetAttrs}
    (hd : dict_in_range d) (h : lookupAttrs d sid = some a) : attrs_in_range a := by
  induction d with
  | nil => simp [lookupAttrs] at h
  | cons p rest ih =>
    obtain ⟨k, v⟩ := p
    by_cases hk : k = sid
    · rw [lookupAttrs, if_pos hk] at h
      cases h
      exact hd (k, a) (by simp)
    · rw [lookupAttrs, if_neg hk] at h
      exact ih (fun q hq => hd q (List.mem_cons_of_mem _ hq)) h

theorem attrs_in_range_get {d : PetDict} (hd : dict_in_range d) (sid : String) :
    attrs_in_range (get_pet_attributes d sid) := by
  unfold get_pet_attributes
  cases h : lookupAttrs d sid with
  | none => exact by decide
  | some a => exact attrs_in_range_of_lookup hd h

theorem store_health_in_range {d : PetDict} {sid : String} {h : Int} {d' : PetDict}
    (hd : dict_in_range d) (hs : store_health d sid (clamp h) = .ok d') :
    dict_in_range d' := by
  unfold store_health at hs
  cases hl : lookupAttrs d sid with
  | none => rw [hl] at hs; cases hs
  | some a =>
    rw [hl] at hs
    injection hs with hs
    subst hs
    have ha := attrs_in_range_of_lookup hd hl
    exact dict_in_range_setAttrs hd
      ⟨clamp_nonneg h, clamp_le_100 h, ha.2.2.1, ha.2.2.2⟩

theorem store_mood_in_range {d : PetDict} {sid : String} {m : Int} {d' : PetDict}
    (hd : dict_in_range d) (hs : store_mood d sid (clamp m) = .ok d') :
    dict_in_range d' := by
  unfold store_mood at hs
  cases hl : lookupAttrs d sid with
  | none => rw [hl] at hs; cases hs
  | some a =>
    rw [hl] at hs
    injection hs with hs
    subst hs
    have ha := attrs_in_range_of_lookup hd hl
    exact dict_in_range_setAttrs hd
      ⟨ha.1, ha.2.1, clamp_nonneg m, clamp_le_100 m⟩

theorem parse_json_response_in_range {o : ParseOracle} {c sid : String}
    {d : PetDict} {r : ChatResult} {d' : PetDict}
    (hd : dict_in_range d) (hp : parse_json_response o c sid d = .ok (r, d')) :
    dict_in_range d' := by
  unfold parse_json_response at hp
  cases hl : o.loads (json_str_of o c) with
  | decodeError =>
    simp only [hl, Except.ok.injEq, Prod.mk.injEq] at hp
    exact hp.2 ▸ hd
  | ok data =>
    simp only [hl, bind, Except.bind] at hp
    cases hhealth : data.health with
    | none =>
      simp only [hhealth] at hp
      cases hmood : data.mood with
      | none =>
        simp only [hmood, Except.ok.injEq, Prod.mk.injEq] at hp
        exact hp.2 ▸ hd
      | some m =>
        simp only [hmood] at hp
        cases hsm : store_mood d sid (clamp m) with
        | error e => simp only [hsm] at hp; exact (Except.noConfusion hp)
        | ok d2 =>
          simp only [hsm, Except.ok.injEq, Prod.mk.injEq] at hp
          exact hp.2 ▸ store_mood_in_range hd hsm
    | some h =>
      simp only [hhealth] at hp
      cases hsh : store_health d sid (clamp h) with
      | error e => simp only [hsh] at hp; exact (Except.noConfusion hp)
      | ok d1 =>
        simp only [hsh] at hp
        have hd1 := store_health_in_range hd hsh
        cases hmood : data.mood with
        | none =>
          simp only [hmood, Except.ok.injEq, Prod.mk.injEq] at hp
          exact hp.2 ▸ hd1
        | some m =>
          simp only [hmood] at hp
          cases hsm : store_mood d1 sid (clamp m) with
          | error e => simp only [hsm] at hp; exact (Except.noConfusion hp)
          | ok d2 =>
            simp only [hsm, Except.ok.injEq, Prod.mk.injEq] at hp
            exact hp.2 ▸ store_mood_in_range hd1 hsm

theorem get_llm_response_in_range {config : Option LLMConfig} {o : ParseOracle}
    {outcome : LLMOutcome} {pt : Option String} {sid : String} {d : PetDict}
    (hd : dict_in_range d) :
    dict_in_range (get_llm_response config o outcome pt sid d).2 := by
  unfold get_llm_response
  cases config with
  | none => exact hd
  | some cfg =>
    by_cases hk : cfg.api_key = ""
    · simp only [if_pos hk]; exact hd
    · simp only [if_neg hk]
      cases outcome with
      | importErr => exact hd
      | exc m => exact hd
      | content s =>
        cases hp : parse_json_response o s sid d with
        | error e => simp only [hp]; exact hd
        | ok pair =>
          obtain ⟨r, d'⟩ := pair
          simp only [hp]
          exact parse_json_response_in_range hd hp

theorem chat_init_attrs_in_range {d : PetDict} {sid : String} {h hp : Option Int}
    (hd : dict_in_range d) (hh : opt_in_range h) (hhp : opt_in_range hp) :
    dict_in_range (chat_init_attrs d sid h hp) := by
  have base : ∀ a : PetAttrs, attrs_in_range a →
      attrs_in_range { health := h.getD a.health, mood := hp.getD a.mood } := by
    intro a ha
    cases h with
    | none =>
      cases hp with
      | none => exact ha
      | some v => exact ⟨ha.1, ha.2.1, hhp.1, hhp.2⟩
    | some w =>
      cases hp with
      | none => exact ⟨hh.1, hh.2, ha.2.2.1, ha.2.2.2⟩
      | some v => exact ⟨hh.1, hh.2, hhp.1, hhp.2⟩
  unfold chat_init_attrs
  cases hl : lookupAttrs d sid with
  | none =>
    exact dict_in_range_setAttrs hd (base { health := 80, mood := 80 } (by decide))
  | some attrs =>
    exact dict_in_range_setAttrs hd (base attrs (attrs_in_range_of_lookup hd hl))

/-! Claim theorems. -/

/-- C1 (counterexample): the claim that the stored 'health' and 'mood' are
always within [0,100] after any call to `chat` fails when `chat` is called
with a caller-supplied out-of-range `health` argument: `chat` with
`health = 150` on an unconfigured service stores health 150 for the session,
and 150 is not ≤ 100. -/
theorem C1_counterexample :
    lookupAttrs
      ((chat (ServiceState.init none none) [] 0 "hi" "s" none (some 150) none
          triv_oracle .importErr).2.1.pet_attributes) "s" =
        some { health := 150, mood := 80 } ∧
    ¬ ((150 : Int) ≤ 100) := ⟨rfl, by decide⟩

/-- C1 (amended): `_update_pet_attributes` always stores clamped values in
[0,100]; `_parse_json_response` preserves in-rangeness of the dictionary
(clamping every reply-supplied health/mood); and `chat` preserves
in-rangeness provided its optional health/happiness arguments, when
supplied, lie in [0,100] (the repository's views never supply them) — but
out-of-range caller-supplied arguments are stored unclamped. -/
theorem C1_attributes_clamped :
    (∀ (d : PetDict) (sid : String) (hc mc : Int), dict_in_range d →
        attrs_in_range (update_pet_attributes d sid hc mc).1 ∧
        dict_in_range (update_pet_attributes d sid hc mc).2) ∧
    (∀ (o : ParseOracle) (c sid : String) (d : PetDict) (r : ChatResult) (d' : PetDict),
        dict_in_range d → parse_json_response o c sid d = .ok (r, d') →
        dict_in_range d') ∧
    (∀ (st : ServiceState) (db : MessageDb) (now : Nat) (um sid : String)
        (pt : Option String) (h hp : Option Int) (o : ParseOracle) (oc : LLMOutcome),
        dict_in_range st.pet_attributes → opt_in_range h → opt_in_range hp →
        dict_in_range (chat st db now um sid pt h hp o oc).2.1.pet_attributes) := by
  refine ⟨?_, ?_, ?_⟩
  · intro d sid hc mc hd
    exact ⟨⟨clamp_nonneg _, clamp_le_100 _, clamp_nonneg _, clamp_le_100 _⟩,
      dict_in_range_setAttrs hd
        ⟨clamp_nonneg _, clamp_le_100 _, clamp_nonneg _, clamp_le_100 _⟩⟩
  · intro o c sid d r d' hd hp
    exact parse_json_response_in_range hd hp
  · intro st db now um sid pt h hp o oc hd hh hhp
    exact get_llm_response_in_range (chat_init_attrs_in_range hd hh hhp)

/-- Witness for the amended C1 at concrete inputs. -/
theorem C1_attributes_clamped_witness :
    attrs_in_range (update_pet_attributes [] "s" 500 (-500)).1 ∧
    dict_in_range
      ((chat (ServiceState.init none none) [] 0 "hi" "s" none none none
          triv_oracle .importErr).2.1.pet_attributes) :=
  ⟨(C1_attributes_clamped.1 [] "s" 500 (-500) (by decide)).1,
   C1_attributes_clamped.2.2 (ServiceState.init none none) [] 0 "hi" "s" none none none
     triv_oracle .importErr (by decide) (by decide) (by decide)⟩

/-- C4: pet-attribute state cannot flow between requests: the service built
by the `send_message` view starts with an empty `pet_attributes` dictionary,
and the view's response (which carries the observed health/mood) is the same
function of the request's own inputs whatever prior chat activity (database
contents, clock) other requests produced. -/
theorem C4_fresh_state_per_request (body : Option SendMessageBody) (user : Option UserId)
    (config : Option LLMConfig) (db₁ db₂ : MessageDb) (now₁ now₂ : Nat)
    (o : ParseOracle) (oc : LLMOutcome) (exc : Option String) :
    (ServiceState.init user config).pet_attributes = [] ∧
    (send_message body user config db₁ now₁ o oc exc).1 =
      (send_message body user config db₂ now₂ o oc exc).1 := by
  refine ⟨rfl, ?_⟩
  cases body with
  | none => rfl
  | some b =>
    by_cases hb : strip b.message = ""
    · simp [send_message, hb]
    · cases exc with
      | some m => simp [send_message, hb]
      | none => simp [send_message, chat, hb]

/-- C7: `_get_system_prompt` is a pure selection on `pet_type`: the fox, dog
and snake templates for those values and the fixed default template for
every other input, including `none`. -/
theorem C7_system_prompt_selection :
    get_system_prompt (some "fox") = fox_prompt ∧
    get_system_prompt (some "dog") = dog_prompt ∧
    get_system_prompt (some "snake") = snake_prompt ∧
    (∀ pt : Option String, pt ≠ some "fox" → pt ≠ some "dog" → pt ≠ some "snake" →
        get_system_prompt pt = default_prompt) := by
  refine ⟨rfl, rfl, rfl, ?_⟩
  intro pt h1 h2 h3
  unfold get_system_prompt
  rw [if_neg h1, if_neg h2, if_neg h3]

/-- Witness for C7 at `pet_type = none`. -/
theorem C7_system_prompt_selection_witness :
    get_system_prompt none = default_prompt :=
  C7_system_prompt_selection.2.2.2 none (by decide) (by decide) (by decide)

/-- C10: for a guest service (`user = None`), `save_message` returns `none`
and writes nothing, `get_chat_history` returns the empty list, and a whole
`chat` call leaves the `ChatMessage` table unchanged. -/
theorem C10_guest_frame (st : ServiceState) (db : MessageDb) (now : Nat)
    (role content um sid : String) (limit : Nat) (pt : Option String)
    (h hp : Option Int) (o : ParseOracle) (oc : LLMOutcome)
    (hu : st.user = none) :
    save_message st db now role content sid = (none, db) ∧
    get_chat_history st db sid limit = [] ∧
    (chat st db now um sid pt h hp o oc).2.2 = db := by
  refine ⟨?_, ?_, ?_⟩ <;> simp [save_message, get_chat_history, chat, hu]

/-- Witness for C10 at concrete inputs. -/
theorem C10_guest_frame_witness :
    save_message (ServiceState.init none none) [] 0 "user" "hi" "s" = (none, []) ∧
    get_chat_history (ServiceState.init none none) [] "s" 10 = [] ∧
    (chat (ServiceState.init none none) [] 0 "hi" "s" none none none
        triv_oracle .importErr).2.2 = [] :=
  C10_guest_frame (ServiceState.init none none) [] 0 "user" "hi" "hi" "s" 10 none
    none none triv_oracle .importErr rfl

/-- C2: after the config check, every exception of the LLM invocation inside
`_get_llm_response` is converted to a returned dict with result false, a
message, an options list, and the session's current health and mood — for a
generic exception, for `ImportError`, and for an exception escaping
`_parse_json_response` — and never propagates; an exception escaping
elsewhere in the request path yields a 500 JSON payload with success false
and an error message from the `send_message` view. -/
theorem C2_llm_errors_caught :
    (∀ (cfg : LLMConfig) (o : ParseOracle) (pt : Option String) (sid : String)
        (d : PetDict) (m : String), cfg.api_key ≠ "" →
        get_llm_response (some cfg) o (.exc m) pt sid d =
          (.obj { result := false, message := exc_error_message m
                  options := exc_error_options
                  health := (get_pet_attributes d sid).health
                  mood := (get_pet_attributes d sid).mood }, d)) ∧
    (∀ (cfg : LLMConfig) (o : ParseOracle) (pt : Option String) (sid : String)
        (d : PetDict), cfg.api_key ≠ "" →
        get_llm_response (some cfg) o .importErr pt sid d =
          (.obj { result := false, message := import_error_message
                  options := import_error_options
                  health := (get_pet_attributes d sid).health
                  mood := (get_pet_attributes d sid).mood }, d)) ∧
    (∀ (cfg : LLMConfig) (o : ParseOracle) (pt : Option String) (sid s e : String)
        (d : PetDict), cfg.api_key ≠ "" →
        parse_json_response o s sid d = .error e →
        get_llm_response (some cfg) o (.content s) pt sid d =
          (.obj { result := false, message := exc_error_message e
                  options := exc_error_options
                  health := (get_pet_attributes d sid).health
                  mood := (get_pet_attributes d sid).mood }, d)) ∧
    (∀ (b : SendMessageBody) (user : Option UserId) (config : Option LLMConfig)
        (db : MessageDb) (now : Nat) (o : ParseOracle) (oc : LLMOutcome) (m : String),
        strip b.message ≠ "" →
        (send_message (some b) user config db now o oc (some m)).1 =
          { status := 500, success := false
            error := some ("服务器错误：" ++ m), data := none }) := by
  refine ⟨?_, ?_, ?_, ?_⟩
  · intro cfg o pt sid d m hk
    simp [get_llm_response, hk, error_dict]
  · intro cfg o pt sid d hk
    simp [get_llm_response, hk, error_dict]
  · intro cfg o pt sid s e d hk hp
    simp [get_llm_response, hk, hp, error_dict]
  · intro b user config db now o oc m hb
    simp [send_message, hb]

/-- Witness for C2 at concrete inputs. -/
theorem C2_llm_errors_caught_witness :
    get_llm_response (some { api_key := "k" }) triv_oracle (.exc "boom") none "s" [] =
      (.obj { result := false, message := exc_error_message "boom"
              options := exc_error_options
              health := (get_pet_attributes [] "s").health
              mood := (get_pet_attributes [] "s").mood }, []) :=
  C2_llm_errors_caught.1 { api_key := "k" } triv_oracle none "s" [] "boom" (by decide)

/-- C3: `_parse_json_response` selects `json_str` in the order fenced block /
brace-delimited object containing "message" / whole content; it always
returns a dict with exactly the keys result, message, options, health, mood
(the fields of `ChatResult`); on decode failure the message is the raw
content, the options are the fixed default triple, and health/mood are the
session's current stored attributes; on success each field is the reply's
value with the same defaults. -/
theorem C3_parse_pipeline :
    (∀ (o : ParseOracle) (c s : String), o.fenced_match = some s →
        json_str_of o c = s) ∧
    (∀ (o : ParseOracle) (c s : String), o.fenced_match = none →
        o.brace_match = some s → json_str_of o c = s) ∧
    (∀ (o : ParseOracle) (c : String), o.fenced_match = none →
        o.brace_match = none → json_str_of o c = c) ∧
    (∀ (o : ParseOracle) (c sid : String) (d : PetDict),
        o.loads (json_str_of o c) = .decodeError →
        parse_json_response o c sid d =
          .ok ({ result := true, message := c, options := default_options
                 health := (get_pet_attributes d sid).health
                 mood := (get_pet_attributes d sid).mood }, d)) ∧
    (∀ (o : ParseOracle) (c sid : String) (d : PetDict) (data : JsonData)
        (r : ChatResult) (d' : PetDict),
        o.loads (json_str_of o c) = .ok data →
        parse_json_response o c sid d = .ok (r, d') →
        r = { result := data.result.getD true
              message := data.message.getD c
              options := data.options.getD default_options
              health := data.health.getD (get_pet_attributes d sid).health
              mood := data.mood.getD (get_pet_attributes d sid).mood }) := by
  refine ⟨?_, ?_, ?_, ?_, ?_⟩
  · intro o c s h
    simp [json_str_of, h]
  · intro o c s h1 h2
    simp [json_str_of, h1, h2]
  · intro o c h1 h2
    simp [json_str_of, h1, h2]
  · intro o c sid d h
    simp [parse_json_response, h]
  · intro o c sid d data r d' hl hp
    unfold parse_json_response at hp
    simp only [hl, bind, Except.bind] at hp
    cases hhealth : data.health with
    | none =>
      simp only [hhealth] at hp
      cases hmood : data.mood with
      | none =>
        simp only [hmood, Except.ok.injEq, Prod.mk.injEq] at hp
        rw [← hp.1]
      | some m =>
        simp only [hmood] at hp
        cases hsm : store_mood d sid (clamp m) with
        | error e => simp only [hsm] at hp; exact (Except.noConfusion hp)
        | ok d2 =>
          simp only [hsm, Except.ok.injEq, Prod.mk.injEq] at hp
          rw [← hp.1]
    | some h =>
      simp only [hhealth] at hp
      cases hsh : store_health d sid (clamp h) with
      | error e => simp only [hsh] at hp; exact (Except.noConfusion hp)
      | ok d1 =>
        simp only [hsh] at hp
        cases hmood : data.mood with
        | none =>
          simp only [hmood, Except.ok.injEq, Prod.mk.injEq] at hp
          rw [← hp.1]
        | some m =>
          simp only [hmood] at hp
          cases hsm : store_mood d1 sid (clamp m) with
          | error e => simp only [hsm] at hp; exact (Except.noConfusion hp)
          | ok d2 =>
            simp only [hsm, Except.ok.injEq, Prod.mk.injEq] at hp
            rw [← hp.1]

/-- Witness for C3: the decode-failure branch at concrete inputs. -/
theorem C3_parse_pipeline_witness :
    parse_json_response triv_oracle "hello" "s" [] =
      .ok ({ result := true, message := "hello", options := default_options
             health := (get_pet_attributes [] "s").health
             mood := (get_pet_attributes [] "s").mood }, []) :=
  C3_parse_pipeline.2.2.2.1 triv_oracle "hello" "s" [] rfl

/-- C5: `get_chat_history` returns only rows whose user is the service's
user and whose session id is the requested one, converted to
role/content/created_at dicts, and returns at most `limit` of them. -/
theorem C5_history_filter (st : ServiceState) (db : MessageDb) (sid : String)
    (limit : Nat) (u : UserId) (hu : st.user = some u) :
    (∀ e ∈ get_chat_history st db sid limit,
        ∃ m ∈ db, m.user = u ∧ m.session_id = sid ∧
          e = { role := m.role, content := m.content, created_at := m.created_at }) ∧
    (get_chat_history st db sid limit).length ≤ limit := by
  unfold get_chat_history
  simp only [hu]
  constructor
  · intro e he
    rw [List.mem_map] at he
    obtain ⟨m, hm, rfl⟩ := he
    have hm0 := List.take_subset _ _ hm
    have hm1 : m ∈ db.filter (fun m => m.user == u && m.session_id == sid) :=
      List.mem_mergeSort.mp hm0
    have hm2 := List.mem_filter.mp hm1
    have hprop := hm2.2
    simp only [Bool.and_eq_true, beq_iff_eq] at hprop
    exact ⟨m, hm2.1, hprop.1, hprop.2, rfl⟩
  · rw [List.length_map]
    exact List.length_take_le _ _

/-- Witness for C5 on a two-user database. -/
theorem C5_history_filter_witness :
    (∀ e ∈ get_chat_history { user := some 1, config := none, pet_attributes := [] }
        [{ user := 1, role := "user", content := "hi", session_id := "s", created_at := 0 },
         { user := 2, role := "user", content := "other", session_id := "s", created_at := 1 }]
        "s" 5,
        ∃ m ∈ [{ user := 1, role := "user", content := "hi", session_id := "s", created_at := 0 },
               ({ user := 2, role := "user", content := "other", session_id := "s",
                  created_at := 1 } : ChatMessageRow)],
          m.user = 1 ∧ m.session_id = "s" ∧
            e = { role := m.role, content := m.content, created_at := m.created_at }) ∧
    (get_chat_history { user := some 1, config := none, pet_attributes := [] }
        [{ user := 1, role := "user", content := "hi", session_id := "s", created_at := 0 },
         { user := 2, role := "user", content := "other", session_id := "s", created_at := 1 }]
        "s" 5).length ≤ 5 :=
  C5_history_filter { user := some 1, config := none, pet_attributes := [] }
    [{ user := 1, role := "user", content := "hi", session_id := "s", created_at := 0 },
     { user := 2, role := "user", content := "other", session_id := "s", created_at := 1 }]
    "s" 5 1 rfl

/-- C6: validation failures map to 400: a non-JSON body and an
empty-after-strip message in the `send_message` view, and a
serializer-invalid body in the REST chat action. -/
theorem C6_validation_maps_400 :
    (∀ (user : Option UserId) (config : Option LLMConfig) (db : MessageDb) (now : Nat)
        (o : ParseOracle) (oc : LLMOutcome) (exc : Option String),
        (send_message none user config db now o oc exc).1 =
          { status := 400, success := false, error := some "无效的JSON数据", data := none }) ∧
    (∀ (b : SendMessageBody) (user : Option UserId) (config : Option LLMConfig)
        (db : MessageDb) (now : Nat) (o : ParseOracle) (oc : LLMOutcome)
        (exc : Option String), strip b.message = "" →
        (send_message (some b) user config db now o oc exc).1 =
          { status := 400, success := false, error := some "消息不能为空", data := none }) ∧
    (∀ (r : ApiChatRequest) (errs : List String) (user : UserId)
        (config : Option LLMConfig) (db : MessageDb) (now : Nat) (o : ParseOracle)
        (oc : LLMOutcome) (exc : Option String),
        chat_request_validate r = .error errs →
        (api_chat r user config db now o oc exc).1 =
          { http_status := 400, body_status := "error", errors := some errs }) := by
  refine ⟨?_, ?_, ?_⟩
  · intro user config db now o oc exc
    rfl
  · intro b user config db now o oc exc hb
    simp [send_message, hb]
  · intro r errs user config db now o oc exc hr
    simp [api_chat, hr]

/-- Witness for C6: an empty message and a missing message field. -/
theorem C6_validation_maps_400_witness :
    (send_message (some { message := "   ", session_id := "s", pet_type := none })
        none none [] 0 triv_oracle .importErr none).1 =
      { status := 400, success := false, error := some "消息不能为空", data := none } ∧
    (api_chat { message := none, session_id := "s", pet_type := none } 1 none [] 0
        triv_oracle .importErr none).1 =
      { http_status := 400, body_status := "error"
        errors := some ["message: this field is required"] } :=
  ⟨C6_validation_maps_400.2.1 { message := "   ", session_id := "s", pet_type := none }
      none none [] 0 triv_oracle .importErr none (by decide),
   C6_validation_maps_400.2.2 { message := none, session_id := "s", pet_type := none }
      ["message: this field is required"] 1 none [] 0 triv_oracle .importErr none rfl⟩

/-- C8: when the decoded reply supplies a 'health' (respectively 'mood')
value, the dict returned by `_parse_json_response` carries the raw reply
value unchanged while the stored copy is clamped into [0,100]; for an
out-of-range reply value the returned attribute therefore differs from the
stored one. -/
theorem C8_raw_returned_clamped_stored :
    (∀ (o : ParseOracle) (c sid : String) (d : PetDict) (data : JsonData) (h : Int)
        (a : PetAttrs) (r : ChatResult) (d' : PetDict),
        o.loads (json_str_of o c) = .ok data →
        data.health = some h →
        lookupAttrs d sid = some a →
        (h < 0 ∨ 100 < h) →
        parse_json_response o c sid d = .ok (r, d') →
        r.health = h ∧
        (∃ a', lookupAttrs d' sid = some a' ∧ a'.health = clamp h) ∧
        (∀ a', lookupAttrs d' sid = some a' → r.health ≠ a'.health)) ∧
    (∀ (o : ParseOracle) (c sid : String) (d : PetDict) (data : JsonData) (m : Int)
        (a : PetAttrs) (r : ChatResult) (d' : PetDict),
        o.loads (json_str_of o c) = .ok data →
        data.mood = some m →
        lookupAttrs d sid = some a →
        (m < 0 ∨ 100 < m) →
        parse_json_response o c sid d = .ok (r, d') →
        r.mood = m ∧
        (∃ a', lookupAttrs d' sid = some a' ∧ a'.mood = clamp m) ∧
        (∀ a', lookupAttrs d' sid = some a' → r.mood ≠ a'.mood)) := by
  constructor
  · intro o c sid d data h a r d' hl hh ha hout hp
    unfold parse_json_response at hp
    simp only [hl, bind, Except.bind, hh, store_health, ha, Option.getD_some] at hp
    cases hm : data.mood with
    | none =>
      simp only [hm, Except.ok.injEq, Prod.mk.injEq] at hp
      obtain ⟨h1, h2⟩ := hp
      subst h1
      subst h2
      refine ⟨rfl, ⟨_, lookupAttrs_setAttrs_self d sid _, rfl⟩, ?_⟩
      intro a' ha'
      rw [lookupAttrs_setAttrs_self] at ha'
      injection ha' with ha'
      subst ha'
      simpa using Ne.symm (clamp_ne_self hout)
    | some m =>
      simp only [hm, store_mood, lookupAttrs_setAttrs_self, Except.ok.injEq,
        Prod.mk.injEq] at hp
      obtain ⟨h1, h2⟩ := hp
      subst h1
      subst h2
      refine ⟨rfl, ⟨_, lookupAttrs_setAttrs_self _ sid _, rfl⟩, ?_⟩
      intro a' ha'
      rw [lookupAttrs_setAttrs_self] at ha'
      injection ha' with ha'
      subst ha'
      simpa using Ne.symm (clamp_ne_self hout)
  · intro o c sid d data m a r d' hl hm ha hout hp
    unfold parse_json_response at hp
    simp only [hl, bind, Except.bind, hm, Option.getD_some] at hp
    cases hhealth : data.health with
    | none =>
      simp only [hhealth, store_mood, ha, Except.ok.injEq, Prod.mk.injEq] at hp
      obtain ⟨h1, h2⟩ := hp
      subst h1
      subst h2
      refine ⟨rfl, ⟨_, lookupAttrs_setAttrs_self d sid _, rfl⟩, ?_⟩
      intro a' ha'
      rw [lookupAttrs_setAttrs_self] at ha'
      injection ha' with ha'
      subst ha'
      simpa using Ne.symm (clamp_ne_self hout)
    | some hv =>
      simp only [hhealth, store_health, ha, store_mood, lookupAttrs_setAttrs_self,
        Except.ok.injEq, Prod.mk.injEq] at hp
      obtain ⟨h1, h2⟩ := hp
      subst h1
      subst h2
      refine ⟨rfl, ⟨_, lookupAttrs_setAttrs_self _ sid _, rfl⟩, ?_⟩
      intro a' ha'
      rw [lookupAttrs_setAttrs_self] at ha'
      injection ha' with ha'
      subst ha'
      simpa using Ne.symm (clamp_ne_self hout)

/-- Witness for C8: a reply with health 150, and a reply with mood -5, each
on a session stored at 80/80. -/
theorem C8_raw_returned_clamped_stored_witness :
    (({ result := true, message := "hi", options := default_options
        health := 150, mood := 80 } : ChatResult).health = 150 ∧
     (∃ a', lookupAttrs [("s", ({ health := 100, mood := 80 } : PetAttrs))] "s" = some a' ∧
         a'.health = clamp 150) ∧
     (∀ a', lookupAttrs [("s", ({ health := 100, mood := 80 } : PetAttrs))] "s" = some a' →
         ({ result := true, message := "hi", options := default_options
            health := 150, mood := 80 } : ChatResult).health ≠ a'.health)) ∧
    (({ result := true, message := "hi", options := default_options
        health := 80, mood := -5 } : ChatResult).mood = -5 ∧
     (∃ a', lookupAttrs [("s", ({ health := 80, mood := 0 } : PetAttrs))] "s" = some a' ∧
         a'.mood = clamp (-5)) ∧
     (∀ a', lookupAttrs [("s", ({ health := 80, mood := 0 } : PetAttrs))] "s" = some a' →
         ({ result := true, message := "hi", options := default_options
            health := 80, mood := -5 } : ChatResult).mood ≠ a'.mood)) :=
  ⟨C8_raw_returned_clamped_stored.1 oracle150 "reply" "s"
      [("s", { health := 80, mood := 80 })]
      { result := none, message := some "hi", options := none, health := some 150, mood := none }
      150 { health := 80, mood := 80 }
      { result := true, message := "hi", options := default_options, health := 150, mood := 80 }
      [("s", { health := 100, mood := 80 })]
      rfl rfl rfl (by decide) rfl,
   C8_raw_returned_clamped_stored.2 oracle_mood_neg "reply" "s"
      [("s", { health := 80, mood := 80 })]
      { result := none, message := some "hi", options := none, health := none, mood := some (-5) }
      (-5) { health := 80, mood := 80 }
      { result := true, message := "hi", options := default_options, health := 80, mood := -5 }
      [("s", { health := 80, mood := 0 })]
      rfl rfl rfl (by decide) rfl⟩

/-- C9: for a logged-in service, `chat` persists the user's message as a
'user' row (written before the LLM is invoked) and afterwards exactly one
'assistant' row — also when the LLM call fails, in which case the assistant
row carries the error payload's message. -/
theorem C9_chat_persists_rows (st : ServiceState) (db : MessageDb) (now : Nat)
    (um sid : String) (pt : Option String) (h hp : Option Int)
    (o : ParseOracle) (oc : LLMOutcome) (u : UserId) (hu : st.user = some u) :
    (chat st db now um sid pt h hp o oc).2.2 =
      db ++ [{ user := u, role := "user", content := um, session_id := sid, created_at := now },
             { user := u, role := "assistant"
               content := response_text (chat st db now um sid pt h hp o oc).1
               session_id := sid, created_at := now + 1 }] ∧
    (∀ (cfg : LLMConfig) (m : String), st.config = some cfg → cfg.api_key ≠ "" →
        oc = .exc m →
        response_text (chat st db now um sid pt h hp o oc).1 = exc_error_message m) := by
  constructor
  · simp [chat, save_message, hu]
  · intro cfg m hc hk hoc
    subst hoc
    simp [chat, hc, get_llm_response, hk, error_dict, response_text]

/-- Witness for C9: a failing LLM call on a logged-in service. -/
theorem C9_chat_persists_rows_witness :
    response_text ((chat { user := some 7, config := some { api_key := "k" },
                           pet_attributes := [] } [] 0 "hi" "s" none none none
        triv_oracle (.exc "boom")).1) = exc_error_message "boom" ∧
    (chat { user := some 7, config := some { api_key := "k" }, pet_attributes := [] }
        [] 0 "hi" "s" none none none triv_oracle (.exc "boom")).2.2 =
      [] ++ [{ user := 7, role := "user", content := "hi", session_id := "s", created_at := 0 },
             { user := 7, role := "assistant", content := exc_error_message "boom"
               session_id := "s", created_at := 0 + 1 }] :=
  ⟨(C9_chat_persists_rows { user := some 7, config := some { api_key := "k" },
                            pet_attributes := [] } [] 0 "hi" "s" none none none
        triv_oracle (.exc "boom") 7 rfl).2 { api_key := "k" } "boom" rfl (by decide) rfl,
   (C9_chat_persists_rows { user := some 7, config := some { api_key := "k" },
                            pet_attributes := [] } [] 0 "hi" "s" none none none
        triv_oracle (.exc "boom") 7 rfl).1⟩

end DigitalPet
